import Mathlib

/-!
Verification of the responsive chart rendering engine in `src/js/thing.js`
(presidents-economy). The JavaScript source is shallowly embedded: dates are
day numbers (proleptic Gregorian, days since the Unix epoch, matching the JS
`Date` value at day resolution), pixel and data values are rationals, and the
fallible render pass is an `Except`.
-/

namespace PresidentsEconomy

/-! ## Date model

JS `new Date(y, m, d)` takes a 0-indexed month and normalizes month and day
overflow. We model a date as its day number since 1970-01-01 using the
standard civil-from-days / days-from-civil arithmetic; month overflow adds
`floor(m / 12)` years and keeps `m mod 12`, and day overflow is absorbed by
the day-number arithmetic itself, exactly as in the JS runtime. -/

/-- Day number of the Gregorian date with year `y`, 1-indexed month `m`
(1..12) and day `d`, relative to 1970-01-01. Day values past the end of the
month normalize forward, as in JS. -/
def daysFromCivil (y m d : Int) : Int :=
  let y1 : Int := if m ≤ 2 then y - 1 else y
  let era : Int := Int.fdiv y1 400
  let yoe : Int := y1 - era * 400
  let mp : Int := Int.emod (m + 9) 12
  let doy : Int := Int.ediv (153 * mp + 2) 5 + d - 1
  let doe : Int := yoe * 365 + Int.ediv yoe 4 - Int.ediv yoe 100 + doy
  era * 146097 + doe - 719468

/-- Inverse of `daysFromCivil`: year, 1-indexed month, day of a day number. -/
def civilFromDays (z0 : Int) : Int × Int × Int :=
  let z : Int := z0 + 719468
  let era : Int := Int.fdiv z 146097
  let doe : Int := z - era * 146097
  let yoe : Int :=
    Int.ediv (doe - Int.ediv doe 1460 + Int.ediv doe 36524 - Int.ediv doe 146096) 365
  let y : Int := yoe + era * 400
  let doy : Int := doe - (365 * yoe + Int.ediv yoe 4 - Int.ediv yoe 100)
  let mp : Int := Int.ediv (5 * doy + 2) 153
  let d : Int := doy - Int.ediv (153 * mp + 2) 5 + 1
  let m : Int := mp + (if mp < 10 then 3 else -9)
  (y + (if m ≤ 2 then 1 else 0), m, d)

/-- JS `new Date(y, m, d)` with 0-indexed month `m`, as a day number:
month overflow moves whole years (`floor(m/12)`), the remaining month is
`m mod 12` (non-negative), and the day is passed through. -/
def jsDate (y m d : Int) : Int :=
  daysFromCivil (y + Int.fdiv m 12) (Int.emod m 12 + 1) d

/-- JS `Date.prototype.getFullYear` on a day number. -/
def getFullYear (z : Int) : Int := (civilFromDays z).1

/-! ## Module-level constants of `thing.js` (lines 12-52) -/

def DEFAULT_WIDTH : ℚ := 940

def MOBILE_BREAKPOINT : ℚ := 600

/-- `new Date(2000, 1, 1)`: 2000-02-01 (JS months are 0-indexed). -/
def MIN_DATE : Int := jsDate 2000 1 1

/-- `new Date(2021, 1, 1)`: 2021-02-01. -/
def MAX_DATE : Int := jsDate 2021 1 1

/-- Fixed horizontal tick dates (every fourth February 1st). -/
def TICK_VALUES : List Int :=
  [ MIN_DATE
  , jsDate 2004 1 1
  , jsDate 2008 1 1
  , jsDate 2012 1 1
  , jsDate 2016 1 1
  , jsDate 2020 1 1 ]

def DISPLAY_ORDER : List String :=
  ["gdp", "unemployment", "labor", "poverty", "trade", "stocks", "wages", "budget", "debt"]

/-- One entry of the `TERMS` table. The source field `end` is a Lean keyword,
so it is embedded as `endDate`. -/
structure Term where
  president : String
  start : Int
  endDate : Int
deriving DecidableEq

/-- The fixed `TERMS` table (lines 36-52), with the 0-indexed-month JS dates. -/
def TERMS : List Term :=
  [ ⟨"Clinton", jsDate 2000 1 1, jsDate 2000 12 31⟩
  , ⟨"Bush", jsDate 2001 1 1, jsDate 2008 12 31⟩
  , ⟨"Obama", jsDate 2009 1 1, jsDate 2016 12 31⟩
  , ⟨"Trump", jsDate 2017 1 1, jsDate 2020 12 31⟩ ]

/-! ## Scales

`d3.time.scale()` and `d3.scale.linear()` with a two-point domain and range
are linear interpolation without clamping. -/

structure LinearScale where
  d0 : ℚ
  d1 : ℚ
  r0 : ℚ
  r1 : ℚ
deriving DecidableEq

/-- Apply a two-point linear scale: linear interpolation, extrapolating
outside the domain (d3 scales do not clamp by default). -/
def LinearScale.apply (s : LinearScale) (t : ℚ) : ℚ :=
  s.r0 + (t - s.d0) * (s.r1 - s.r0) / (s.d1 - s.d0)

/-! ## Input data model (see the input contract in the spec and
`formatData`) -/

/-- One point of a metric series, after `formatData` parsed `period` into a
date. -/
structure Point where
  period : String
  date : Int
  value : ℚ
deriving DecidableEq

/-- One metric object of the parsed dataset. The `ticks` field may be absent
from the JSON (`Option`); the other fields used by `renderGraphic` are kept
with their source names. -/
structure MetricData where
  metric : String
  min : ℚ
  max : ℚ
  ticks : Option (List ℚ)
  show_plus : Bool
  label : String
  data : List Point
deriving DecidableEq

/-- The config object built per metric in `render` (lines 141-145). -/
structure Config where
  container : String
  width : ℚ
  data : MetricData
deriving DecidableEq

/-! ## Rendering output model

The DOM subtree `renderGraphic` builds inside a container, at the level of
the geometric attributes the code sets. -/

/-- A `rect` element of the term shading loop. -/
structure Rect where
  cls : String
  x : ℚ
  width : ℚ
  y : ℚ
  height : ℚ
deriving DecidableEq

/-- The completed graphic for one metric container. `yTickValues` holds JS
`undefined` entries as `none` (out-of-range indexing on mobile); `labelY` is
`none` when the last configured tick is missing. -/
structure GraphicOutput where
  svgWidth : ℚ
  svgHeight : ℚ
  chartWidth : ℚ
  chartHeight : ℚ
  xScale : LinearScale
  yScale : LinearScale
  termRects : List Rect
  xTickValues : List Int
  xTickLabels : List String
  yTickValues : Option (List (Option ℚ))
  yTickLabels : Option (List String)
  linePoints : List (ℚ × ℚ)
  bubbleX : ℚ
  labelX : ℚ
  labelY : Option ℚ
  labelText : String
deriving DecidableEq

/-! ## Helper functions of the render pass -/

/-- Modelled from the spec: `utils.classify` lives in `src/js/utils.js`,
which is not among the provided sources. Per the spec it derives a CSS-safe
identifier from a label: lowercase, non-alphanumerics stripped/dashed. We
lowercase every character and replace non-alphanumerics with a dash. -/
def classify (s : String) : String :=
  String.mk (s.data.map fun c => if c.isAlphanum then c.toLower else '-')

/-- JS number-to-string conversion, for the integral tick values the charts
use. A non-integral rational is shown as `num/den`; JS would print a decimal
expansion instead, but no claim and no dataset tick is non-integral. -/
def jsNumToString (q : ℚ) : String :=
  if q.den = 1 then toString q.num else toString q.num ++ "/" ++ toString q.den

/-- The y-axis `tickFormat` callback (lines 231-241) applied to a tick value,
where `none` is a JS `undefined` entry. For `undefined`: `undefined <= 0` is
false, so with `show_plus` the label is the string concatenation
`"+" + undefined = "+undefined"`; without it the returned `undefined` is
rendered by d3 `selection.text` as the empty string (`v == null` check). -/
def yTickFormat (show_plus : Bool) (d : Option ℚ) : String :=
  match d with
  | some v =>
    if v ≤ 0 then jsNumToString v
    else if show_plus then "+" ++ jsNumToString v
    else jsNumToString v
  | none => if show_plus then "+undefined" else ""

/-- Mobile tick thinning (lines 222-228): positional indexing at 0, 2 and 4,
where an out-of-range index yields JS `undefined` (`none`) rather than an
error. -/
def thinTicks (ticks : List ℚ) : List (Option ℚ) :=
  [ticks.get? 0, ticks.get? 2, ticks.get? 4]

/-- The aspect ratio chosen at line 157: `isMobile ? 2.5 / 1 : 5 / 1`. -/
def aspectRatio (isMobile : Bool) : ℚ :=
  if isMobile then 5 / 2 else 5

/-- The error message for the unconditional dereference at line 304:
`config.data.ticks[config.data.ticks.length - 1]` reads `.length` off
`undefined` when the metric has no `ticks` field. -/
def ticksLengthError : String :=
  "TypeError: cannot read length of undefined ticks"

/-- The graphic built by a successful `renderGraphic` pass (lines 155-309),
given that `config.data.ticks` is present with value `ts`. Lets mirror the
source: margins 10/20/30/50, `height = width / aspectRatio`,
`chartWidth/chartHeight` net of margins, x scale over the fixed date domain,
y scale over the metric min/max, the `TERMS` shading rectangles, fixed x
ticks labelled by year, y ticks thinned on mobile, the line points, and the
label anchored at `xScale(MIN_DATE) - 9` and at the y position of the last
configured tick value. -/
def renderGraphicOut (isMobile : Bool) (config : Config) (ts : List ℚ) : GraphicOutput :=
  let marginsTop : ℚ := 10
  let marginsRight : ℚ := 20
  let marginsBottom : ℚ := 30
  let marginsLeft : ℚ := 50
  let width := config.width
  let height := width / aspectRatio isMobile
  let chartWidth := width - (marginsLeft + marginsRight)
  let chartHeight := height - (marginsTop + marginsBottom)
  let xScale : LinearScale :=
    { d0 := (MIN_DATE : ℚ), d1 := (MAX_DATE : ℚ), r0 := 0, r1 := chartWidth }
  let yScale : LinearScale :=
    { d0 := config.data.min, d1 := config.data.max, r0 := chartHeight, r1 := 0 }
  let termRects : List Rect := TERMS.map fun term =>
    { cls := "president " ++ classify term.president
    , x := xScale.apply (term.start : ℚ)
    , width := xScale.apply (term.endDate : ℚ) - xScale.apply (term.start : ℚ)
    , y := 0
    , height := chartHeight }
  let tickValues : List (Option ℚ) := if isMobile then thinTicks ts else ts.map some
  { svgWidth := chartWidth + marginsLeft + marginsRight
  , svgHeight := chartHeight + marginsTop + marginsBottom
  , chartWidth := chartWidth
  , chartHeight := chartHeight
  , xScale := xScale
  , yScale := yScale
  , termRects := termRects
  , xTickValues := TICK_VALUES
  , xTickLabels := TICK_VALUES.map fun d => toString (getFullYear d)
  , yTickValues := some tickValues
  , yTickLabels := some (tickValues.map (yTickFormat config.data.show_plus))
  , linePoints := config.data.data.map fun p => (xScale.apply (p.date : ℚ), yScale.apply p.value)
  , bubbleX := xScale.apply (MIN_DATE : ℚ) - 9
  , labelX := xScale.apply (MIN_DATE : ℚ) - 9
  , labelY := (ts.get? (ts.length - 1)).map yScale.apply
  , labelText := config.data.label }

/-- `renderGraphic` (lines 155-309) as a fallible computation. When the
metric has no `ticks` field the guard at line 219 skips the y-axis tick
configuration, but line 304 still dereferences
`config.data.ticks[config.data.ticks.length - 1]`, so the pass throws; the
partially built subtree of a throwing pass is not a completed graphic. -/
def renderGraphic (isMobile : Bool) (config : Config) : Except String GraphicOutput :=
  match config.data.ticks with
  | none => Except.error ticksLengthError
  | some ts => Except.ok (renderGraphicOut isMobile config ts)

/-! ## The render pass over the dataset (`render`, lines 131-150) -/

/-- `isMobile` as set at lines 134-138 from the measured width. -/
def computeIsMobile (width : ℚ) : Bool :=
  width ≤ MOBILE_BREAKPOINT

/-- The per-metric config object built at lines 141-145. -/
def mkConfig (width : ℚ) (p : String × MetricData) : Config :=
  { container := "#" ++ p.1 ++ " .chart", width := width, data := p.2 }

/-- The render pass at lines 140-146: `_.forIn(graphicData, ...)` iterates
the keys of the dataset mapping itself, in mapping order (modelled as an
association list), and calls `renderGraphic` for each. There is no
try/catch, so an exception thrown for one metric aborts the remainder of the
pass. On success, the pass yields the key-tagged completed graphics. -/
def render (width : ℚ) : List (String × MetricData) → Except String (List (String × GraphicOutput))
  | [] => Except.ok []
  | p :: rest => do
    let out ← renderGraphic (computeIsMobile width) (mkConfig width p)
    let outs ← render width rest
    pure ((p.1, out) :: outs)

/-- The render pass acting on the page DOM, modelled as the contents of each
chart container (`none` = empty, cleared, or an incomplete subtree of a
throwing pass). Each metric pass first clears its container
(`containerElement.html('')`, line 175) and rebuilds it from the dataset and
width alone; a throwing pass leaves its own container without a completed
graphic and stops the loop, leaving later containers untouched. -/
def renderInto (width : ℚ) : List (String × MetricData) →
    (String → Option GraphicOutput) → String → Option GraphicOutput
  | [], dom => dom
  | p :: rest, dom =>
    match renderGraphic (computeIsMobile width) (mkConfig width p) with
    | Except.ok out =>
      renderInto width rest (fun c => if c = (mkConfig width p).container then some out else dom c)
    | Except.error _ =>
      fun c => if c = (mkConfig width p).container then none else dom c

/-- What one render pass writes to container `c`: `some v` when the pass
writes contents `v` there, `none` when the pass leaves `c` untouched.
Independent of the previous DOM. -/
def renderResult (width : ℚ) : List (String × MetricData) → String → Option (Option GraphicOutput)
  | [] => fun _ => none
  | p :: rest => fun c =>
    match renderGraphic (computeIsMobile width) (mkConfig width p) with
    | Except.ok out =>
      match renderResult width rest c with
      | some v => some v
      | none => if c = (mkConfig width p).container then some (some out) else none
    | Except.error _ => if c = (mkConfig width p).container then some none else none

/-- `onResize` (lines 124-126) simply re-runs the render pass against the
current DOM with the freshly measured width. -/
def onResize (width : ℚ) (graphicData : List (String × MetricData))
    (dom : String → Option GraphicOutput) : String → Option GraphicOutput :=
  renderInto width graphicData dom

/-! ## Concrete inputs for witnesses and counterexamples -/

/-- A well-formed sample metric (five tick values, `ticks` present). -/
def sampleData : MetricData :=
  { metric := "Unemployment rate"
  , min := 0
  , max := 10
  , ticks := some [0, 2, 4, 6, 8]
  , show_plus := false
  , label := "pct"
  , data := [⟨"2009", jsDate 2009 0 1, 5⟩, ⟨"2010", jsDate 2010 0 1, 6⟩] }

/-- A metric whose JSON object has no `ticks` field. -/
def badData : MetricData :=
  { metric := "Broken"
  , min := 0
  , max := 10
  , ticks := none
  , show_plus := false
  , label := "x"
  , data := [] }

/-- A desktop-width config for the sample metric. -/
def sampleCfg : Config := mkConfig 940 ("gdp", sampleData)

/-- A mobile-width config whose metric has only three tick values. -/
def mobileCfg3 : Config :=
  mkConfig 400 ("gdp",
    { metric := "Three ticks"
    , min := 0
    , max := 10
    , ticks := some [1, 2, 3]
    , show_plus := false
    , label := "x"
    , data := [] })

/-- A dataset whose first metric is malformed and whose second is fine. -/
def gdWithBad : List (String × MetricData) :=
  [("gdp", badData), ("unemployment", sampleData)]

/-- A dataset carrying a key that is not in `DISPLAY_ORDER`, with the keys
that are in it listed against its order. -/
def gdExtra : List (String × MetricData) :=
  [("unemployment", sampleData), ("gdp", sampleData), ("extra", sampleData)]

/-! ## Helper lemmas about the built graphic -/

lemma renderGraphicOut_xScale (m : Bool) (cfg : Config) (ts : List ℚ) :
    (renderGraphicOut m cfg ts).xScale =
      { d0 := (MIN_DATE : ℚ), d1 := (MAX_DATE : ℚ), r0 := 0, r1 := cfg.width - (50 + 20) } := by
  simp [renderGraphicOut]

lemma renderGraphicOut_svgHeight (m : Bool) (cfg : Config) (ts : List ℚ) :
    (renderGraphicOut m cfg ts).svgHeight = cfg.width / aspectRatio m := by
  simp [renderGraphicOut]
  ring

lemma renderGraphicOut_yTickValues (m : Bool) (cfg : Config) (ts : List ℚ) :
    (renderGraphicOut m cfg ts).yTickValues =
      some (if m then thinTicks ts else ts.map some) := by
  simp [renderGraphicOut]

lemma renderGraphicOut_chartHeight (m : Bool) (cfg : Config) (ts : List ℚ) :
    (renderGraphicOut m cfg ts).chartHeight = cfg.width / aspectRatio m - (10 + 30) := by
  simp [renderGraphicOut]

lemma renderGraphicOut_termRects (m : Bool) (cfg : Config) (ts : List ℚ) :
    (renderGraphicOut m cfg ts).termRects = TERMS.map (fun t =>
      { cls := "president " ++ classify t.president
      , x := (renderGraphicOut m cfg ts).xScale.apply (t.start : ℚ)
      , width := (renderGraphicOut m cfg ts).xScale.apply (t.endDate : ℚ) -
          (renderGraphicOut m cfg ts).xScale.apply (t.start : ℚ)
      , y := 0
      , height := (renderGraphicOut m cfg ts).chartHeight }) := by
  simp [renderGraphicOut]

lemma LinearScale.apply_sub (s : LinearScale) (a b : ℚ) :
    s.apply b - s.apply a = (b - a) * (s.r1 - s.r0) / (s.d1 - s.d0) := by
  unfold LinearScale.apply
  ring

lemma renderGraphic_ok_elim (m : Bool) (cfg : Config) (out : GraphicOutput)
    (hok : renderGraphic m cfg = Except.ok out) :
    ∃ ts, cfg.data.ticks = some ts ∧ renderGraphicOut m cfg ts = out := by
  cases hts : cfg.data.ticks with
  | none => simp [renderGraphic, hts] at hok
  | some ts =>
    refine ⟨ts, rfl, ?_⟩
    simpa [renderGraphic, hts] using hok

/-! ## Claims -/

/-- C1: for every metric and every render pass that completes, the horizontal
scale has the fixed domain `[MIN_DATE, MAX_DATE]` and the range
`[0, chartWidth]`; the right-hand side mentions only the configured width, so
the metric data never influences the x-scale. -/
theorem claim_C1 (isMobile : Bool) (cfg : Config) (out : GraphicOutput)
    (hok : renderGraphic isMobile cfg = Except.ok out) :
    out.xScale =
      { d0 := (MIN_DATE : ℚ), d1 := (MAX_DATE : ℚ), r0 := 0, r1 := cfg.width - (50 + 20) } := by
  obtain ⟨ts, hts, hout⟩ := renderGraphic_ok_elim isMobile cfg out hok
  rw [← hout]
  exact renderGraphicOut_xScale isMobile cfg ts

/-- Witness for C1: the sample metric at width 940. -/
theorem claim_C1_witness :
    (renderGraphic false sampleCfg).map GraphicOutput.xScale =
      Except.ok { d0 := (MIN_DATE : ℚ), d1 := (MAX_DATE : ℚ), r0 := 0, r1 := 940 - (50 + 20) } := by
  cases hok : renderGraphic false sampleCfg with
  | error e => simp [renderGraphic, sampleCfg, mkConfig, sampleData] at hok
  | ok out =>
    have hx := claim_C1 false sampleCfg out hok
    simp [Except.map, hx, sampleCfg, mkConfig]

/-- C3: a vertical tick value `d <= 0` is rendered as-is; a value `d > 0` is
rendered with a leading plus exactly when the metric's `show_plus` flag is
set, and as-is otherwise. -/
theorem claim_C3 (sp : Bool) (d : ℚ) :
    (d ≤ 0 → yTickFormat sp (some d) = jsNumToString d) ∧
    (0 < d → sp = true → yTickFormat sp (some d) = "+" ++ jsNumToString d) ∧
    (0 < d → sp = false → yTickFormat sp (some d) = jsNumToString d) := by
  refine ⟨fun h => by simp [yTickFormat, h], fun h hsp => ?_, fun h hsp => ?_⟩
  · simp [yTickFormat, not_le.mpr h, hsp]
  · simp [yTickFormat, not_le.mpr h, hsp]

/-- Witness for C3: with `show_plus` set, 4 renders as "+4", -2 as "-2" and
0 as "0". -/
theorem claim_C3_witness :
    yTickFormat true (some 4) = "+4" ∧ yTickFormat true (some (-2)) = "-2" ∧
      yTickFormat true (some 0) = "0" := by
  refine ⟨?_, ?_, ?_⟩
  · rw [(claim_C3 true 4).2.1 (by norm_num) rfl]
    rfl
  · rw [(claim_C3 true (-2)).1 (by norm_num)]
    rfl
  · rw [(claim_C3 true 0).1 le_rfl]
    rfl

/-- C9: when a metric has no `ticks` field, the guard at line 219 skips the
y-axis tick configuration, but the unconditional dereference of
`config.data.ticks[...length - 1]` at line 304 makes the whole render of
that metric throw. -/
theorem claim_C9 (isMobile : Bool) (cfg : Config) (hticks : cfg.data.ticks = none) :
    renderGraphic isMobile cfg = Except.error ticksLengthError := by
  simp [renderGraphic, hticks]

/-- Witness for C9: the `badData` metric (no `ticks`) throws at width 940. -/
theorem claim_C9_witness :
    renderGraphic false (mkConfig 940 ("gdp", badData)) = Except.error ticksLengthError :=
  claim_C9 false (mkConfig 940 ("gdp", badData)) rfl

/-- C10: with the 0-indexed JS month arithmetic, every `TERMS` end date is
January 31 of the year after the year written in the source; every term has
`start < end`; consecutive terms are strictly ordered and non-overlapping;
the first term starts at `MIN_DATE`; and the last term ends one day before
`MAX_DATE`, on 2021-01-31. -/
theorem claim_C10 :
    TERMS.map Term.endDate =
        [jsDate 2001 0 31, jsDate 2009 0 31, jsDate 2017 0 31, jsDate 2021 0 31] ∧
      (∀ t ∈ TERMS, t.start < t.endDate) ∧
      (∀ p ∈ TERMS.zip TERMS.tail, p.1.endDate < p.2.start) ∧
      TERMS.head?.map Term.start = some MIN_DATE ∧
      TERMS.getLast?.map Term.endDate = some (MAX_DATE - 1) := by
  decide

/-- C2: in a render pass with measured width `w` and a 5-element `tickValues`
input, a width `w <= 600` gives aspect ratio 2.5 (the svg height is
`w / 2.5`) and a 3-entry vertical tick set, and a width `w > 600` gives
aspect ratio 5 (height `w / 5`) and a 5-entry vertical tick set. -/
theorem claim_C2 (w : ℚ) (cfg : Config) (ts : List ℚ) (out : GraphicOutput)
    (hw : cfg.width = w) (hts : cfg.data.ticks = some ts) (h5 : ts.length = 5)
    (hok : renderGraphic (computeIsMobile w) cfg = Except.ok out) :
    (w ≤ 600 → out.svgHeight = w / (5 / 2) ∧ out.yTickValues.map List.length = some 3) ∧
    (600 < w → out.svgHeight = w / 5 ∧ out.yTickValues.map List.length = some 5) := by
  obtain ⟨ts2, hts2, hout⟩ := renderGraphic_ok_elim _ cfg out hok
  rw [hts] at hts2
  obtain rfl : ts = ts2 := by simpa using hts2
  subst hout
  constructor
  · intro hle
    have hm : computeIsMobile w = true := by
      simp only [computeIsMobile, MOBILE_BREAKPOINT, decide_eq_true_eq]
      exact hle
    refine ⟨?_, ?_⟩
    · rw [renderGraphicOut_svgHeight, hw, hm, aspectRatio, if_pos rfl]
    · rw [renderGraphicOut_yTickValues, hm, if_pos rfl]
      simp [thinTicks]
  · intro hgt
    have hm : computeIsMobile w = false := by
      simp only [computeIsMobile, MOBILE_BREAKPOINT, decide_eq_false_iff_not]
      exact not_le.mpr hgt
    refine ⟨?_, ?_⟩
    · rw [renderGraphicOut_svgHeight, hw, hm, aspectRatio, if_neg (by simp)]
    · rw [renderGraphicOut_yTickValues, hm, if_neg (by simp)]
      simp [h5]

/-- Witness for C2: the sample metric at widths 500 (mobile: height 200,
3 ticks) and 940 (desktop: height 188, 5 ticks). -/
theorem claim_C2_witness :
    ((renderGraphic (computeIsMobile 500) (mkConfig 500 ("gdp", sampleData))).map
        (fun o => (o.svgHeight, o.yTickValues.map List.length)) =
      Except.ok (200, some 3)) ∧
    ((renderGraphic (computeIsMobile 940) (mkConfig 940 ("gdp", sampleData))).map
        (fun o => (o.svgHeight, o.yTickValues.map List.length)) =
      Except.ok (188, some 5)) := by
  constructor
  · cases hok : renderGraphic (computeIsMobile 500) (mkConfig 500 ("gdp", sampleData)) with
    | error e => simp [renderGraphic, mkConfig, sampleData] at hok
    | ok out =>
      have h := (claim_C2 500 _ [0, 2, 4, 6, 8] out rfl rfl rfl hok).1 (by norm_num)
      simp [Except.map, h.1, h.2]
      norm_num
  · cases hok : renderGraphic (computeIsMobile 940) (mkConfig 940 ("gdp", sampleData)) with
    | error e => simp [renderGraphic, mkConfig, sampleData] at hok
    | ok out =>
      have h := (claim_C2 940 _ [0, 2, 4, 6, 8] out rfl rfl rfl hok).2 (by norm_num)
      simp [Except.map, h.1, h.2]
      norm_num

/-- Counterexample for C4: on a mobile render of a metric with only three
tick values, the pass does not raise: it completes, and the thinned vertical
tick set contains a JS `undefined` entry at the out-of-range index 4. -/
theorem claim_C4_counterexample :
    (renderGraphic true mobileCfg3).isOk = true ∧
      (renderGraphic true mobileCfg3).map GraphicOutput.yTickValues =
        Except.ok (some [some 1, some 3, none]) := by
  exact ⟨rfl, rfl⟩

/-- C4 (amended): on a mobile render, a `tickValues` list with fewer than 5
entries makes the thinning silently produce `[t[0], t[2], t[4]]` with JS
`undefined` at the out-of-range indices (index 4 in particular), rather than
raising an error. -/
theorem claim_C4 (cfg : Config) (ts : List ℚ) (out : GraphicOutput)
    (hts : cfg.data.ticks = some ts) (hlen : ts.length < 5)
    (hok : renderGraphic true cfg = Except.ok out) :
    out.yTickValues = some [ts.get? 0, ts.get? 2, ts.get? 4] ∧ ts.get? 4 = none := by
  obtain ⟨ts2, hts2, hout⟩ := renderGraphic_ok_elim _ cfg out hok
  rw [hts] at hts2
  obtain rfl : ts = ts2 := by simpa using hts2
  subst hout
  refine ⟨?_, ?_⟩
  · rw [renderGraphicOut_yTickValues, if_pos rfl]
    simp [thinTicks]
  · exact List.get?_eq_none.mpr (by omega)

/-- Witness for C4 (amended): the three-tick mobile metric concretely yields
the undefined-carrying tick set. -/
theorem claim_C4_witness :
    (renderGraphic true mobileCfg3).map GraphicOutput.yTickValues =
      Except.ok (some [some 1, some 3, none]) := by
  cases hok : renderGraphic true mobileCfg3 with
  | error e => simp [renderGraphic, mobileCfg3, mkConfig] at hok
  | ok out =>
    have h := claim_C4 mobileCfg3 [1, 2, 3] out rfl (by norm_num) hok
    simp [Except.map, h.1]

/-- C5: every term of the fixed overlay table already satisfies
`start < end`, so the rejection branch for a negative-width band can never
fire on this table; the drawn rectangles are exactly
`x = xScale(start)`, `width = xScale(end) - xScale(start)`,
`height = chartHeight` (tagged with the classified president name), and with
a positive chart width every drawn band width is positive. -/
theorem claim_C5 (m : Bool) (cfg : Config) (out : GraphicOutput)
    (hok : renderGraphic m cfg = Except.ok out) (hw : 70 < cfg.width) :
    (∀ t ∈ TERMS, t.start < t.endDate) ∧
      out.termRects = TERMS.map (fun t =>
        { cls := "president " ++ classify t.president
        , x := out.xScale.apply (t.start : ℚ)
        , width := out.xScale.apply (t.endDate : ℚ) - out.xScale.apply (t.start : ℚ)
        , y := 0
        , height := out.chartHeight }) ∧
      (∀ r ∈ out.termRects, 0 < r.width) := by
  obtain ⟨ts, hts, hout⟩ := renderGraphic_ok_elim m cfg out hok
  subst hout
  have hterms : ∀ t ∈ TERMS, t.start < t.endDate := by decide
  refine ⟨hterms, renderGraphicOut_termRects m cfg ts, ?_⟩
  intro r hr
  rw [renderGraphicOut_termRects m cfg ts] at hr
  obtain ⟨t, ht, rfl⟩ := List.mem_map.1 hr
  show (0 : ℚ) <
    (renderGraphicOut m cfg ts).xScale.apply (t.endDate : ℚ) -
      (renderGraphicOut m cfg ts).xScale.apply (t.start : ℚ)
  rw [LinearScale.apply_sub, renderGraphicOut_xScale]
  have h1 : (t.start : ℚ) < (t.endDate : ℚ) := by
    exact_mod_cast hterms t ht
  have h2 : ((MIN_DATE : Int) : ℚ) < ((MAX_DATE : Int) : ℚ) := by
    exact_mod_cast (by decide : MIN_DATE < MAX_DATE)
  apply div_pos
  · apply mul_pos (by linarith)
    simpa using (by linarith [hw] : (0 : ℚ) < cfg.width - (50 + 20))
  · simpa using h2

/-- Witness for C5: at width 940 every drawn band has positive width. -/
theorem claim_C5_witness :
    (renderGraphic false sampleCfg).map
        (fun o => o.termRects.all fun r => decide (0 < r.width)) =
      Except.ok true := by
  cases hok : renderGraphic false sampleCfg with
  | error e => simp [renderGraphic, sampleCfg, mkConfig, sampleData] at hok
  | ok out =>
    have h := (claim_C5 false sampleCfg out hok (by norm_num [sampleCfg, mkConfig])).2.2
    simp only [Except.map]
    congr 1
    rw [List.all_eq_true]
    intro r hr
    exact decide_eq_true (h r hr)

lemma exceptBind_ok {α β : Type} (a : α) (f : α → Except String β) :
    (Except.ok a >>= f) = f a := rfl

lemma exceptBind_error {α β : Type} (e : String) (f : α → Except String β) :
    ((Except.error e : Except String α) >>= f) = Except.error e := rfl

lemma exceptPure {α : Type} (a : α) : (pure a : Except String α) = Except.ok a := rfl

/-- Counterexample for C6: with a dataset whose first metric is malformed
(no `ticks`) and whose second renders fine on its own, the render pass
aborts with the thrown error and renders nothing for the healthy second
metric — failures are not isolated per metric. -/
theorem claim_C6_counterexample :
    render 940 gdWithBad = Except.error ticksLengthError ∧
      (renderGraphic (computeIsMobile 940)
          (mkConfig 940 ("unemployment", sampleData))).isOk = true := by
  exact ⟨rfl, rfl⟩

/-- C6 (amended): the per-metric loop has no try/catch, so when every metric
before some metric renders fine and that metric throws, the whole render
pass fails with that error, and the metrics after it are not rendered. -/
theorem claim_C6 (w : ℚ) (gd : List (String × MetricData)) (p : String × MetricData)
    (rest : List (String × MetricData)) (e : String)
    (hpre : ∀ q ∈ gd, (renderGraphic (computeIsMobile w) (mkConfig w q)).isOk = true)
    (hfail : renderGraphic (computeIsMobile w) (mkConfig w p) = Except.error e) :
    render w (gd ++ p :: rest) = Except.error e := by
  induction gd with
  | nil =>
    simp only [List.nil_append, render, hfail, exceptBind_error]
  | cons q gd ih =>
    have hq := hpre q (List.mem_cons_self q gd)
    obtain ⟨out, hout⟩ :
        ∃ out, renderGraphic (computeIsMobile w) (mkConfig w q) = Except.ok out := by
      cases hr : renderGraphic (computeIsMobile w) (mkConfig w q) with
      | ok o => exact ⟨o, rfl⟩
      | error e2 =>
        rw [hr] at hq
        simp [Except.isOk, Except.toBool] at hq
    have ih2 := ih fun r hr => hpre r (List.mem_cons_of_mem q hr)
    simp only [List.cons_append, render, hout, ih2, exceptBind_ok, exceptBind_error,
      List.append_eq]

/-- Witness for C6 (amended): a healthy first metric followed by the
malformed one makes the whole pass error out. -/
theorem claim_C6_witness :
    render 940 [("unemployment", sampleData), ("gdp", badData)] =
      Except.error ticksLengthError := by
  have h := claim_C6 940 [("unemployment", sampleData)] ("gdp", badData) [] ticksLengthError
    (by
      intro q hq
      rw [List.mem_singleton] at hq
      subst hq
      rfl)
    rfl
  simpa using h

/-- Counterexample for C7: the render pass follows the dataset mapping
order, not `DISPLAY_ORDER`, and does not ignore keys outside
`DISPLAY_ORDER`: a dataset listing unemployment before gdp and carrying an
extra key renders, in that order, a chart for all three — even though
"extra" is not in `DISPLAY_ORDER` and gdp precedes unemployment there. -/
theorem claim_C7_counterexample :
    (render 940 gdExtra).map (List.map Prod.fst) =
        Except.ok ["unemployment", "gdp", "extra"] ∧
      "extra" ∉ DISPLAY_ORDER ∧
      DISPLAY_ORDER.indexOf "gdp" < DISPLAY_ORDER.indexOf "unemployment" := by
  refine ⟨rfl, by decide, by decide⟩

/-- C7 (amended): `render` iterates the dataset mapping itself
(`_.forIn(graphicData, ...)`), so a successful pass renders one chart per
dataset key, tagged with exactly the dataset keys in the dataset's own
order — `DISPLAY_ORDER` plays no role in the render pass. -/
theorem claim_C7 (w : ℚ) (gd : List (String × MetricData))
    (outs : List (String × GraphicOutput)) (hok : render w gd = Except.ok outs) :
    outs.map Prod.fst = gd.map Prod.fst := by
  induction gd generalizing outs with
  | nil =>
    simp only [render] at hok
    cases hok
    rfl
  | cons p rest ih =>
    cases hr : renderGraphic (computeIsMobile w) (mkConfig w p) with
    | error e =>
      simp only [render, hr, exceptBind_error] at hok
      exact Except.noConfusion hok
    | ok out =>
      cases hrest : render w rest with
      | error e =>
        simp only [render, hr, hrest, exceptBind_ok, exceptBind_error] at hok
        exact Except.noConfusion hok
      | ok outs2 =>
        simp only [render, hr, hrest, exceptBind_ok, exceptPure,
          Except.ok.injEq] at hok
        subst hok
        simp [ih outs2 hrest]

/-- Witness for C7 (amended): the three-key dataset renders exactly its own
keys in its own order. -/
theorem claim_C7_witness :
    (render 940 gdExtra).map (List.map Prod.fst) = Except.ok (gdExtra.map Prod.fst) := by
  cases hok : render 940 gdExtra with
  | error e =>
    have hko : (render 940 gdExtra).isOk = true := rfl
    rw [hok] at hko
    simp [Except.isOk, Except.toBool] at hko
  | ok outs =>
    simp [Except.map, claim_C7 940 gdExtra outs hok]

/-- One render pass writes to container `c` exactly what `renderResult`
says, independently of the previous DOM. -/
lemma renderInto_eq (w : ℚ) (gd : List (String × MetricData))
    (dom : String → Option GraphicOutput) (c : String) :
    renderInto w gd dom c =
      match renderResult w gd c with
      | some v => v
      | none => dom c := by
  induction gd generalizing dom with
  | nil => simp [renderInto, renderResult]
  | cons p rest ih =>
    cases hr : renderGraphic (computeIsMobile w) (mkConfig w p) with
    | ok out =>
      simp only [renderInto, renderResult, hr]
      rw [ih]
      cases hres : renderResult w rest c with
      | some v => simp [hres]
      | none =>
        simp only [hres]
        by_cases hc : c = (mkConfig w p).container <;> simp [hc]
    | error e =>
      simp only [renderInto, renderResult, hr]
      by_cases hc : c = (mkConfig w p).container <;> simp [hc]

/-- C8: calling `onResize` twice in succession with the same measured width
and dataset leaves the same DOM as calling it once — each pass clears each
container and rebuilds it from the dataset and width alone, so repeated
renders accumulate nothing. -/
theorem claim_C8 (w : ℚ) (graphicData : List (String × MetricData))
    (dom : String → Option GraphicOutput) :
    onResize w graphicData (onResize w graphicData dom) = onResize w graphicData dom := by
  funext c
  unfold onResize
  rw [renderInto_eq, renderInto_eq]
  cases hres : renderResult w graphicData c with
  | some v => simp
  | none => simp

end PresidentsEconomy
